import Mathlib

/-!
Shallow embedding of the El-Academico frontend search and landing components:
the `DocumentSearch` component (search term, filter set, pagination, debounced
fetching, URL synchronization) and the `HomePage` component (two concurrent
initial fetches behind a mounted-flag guard).  Every definition is translated
from the JavaScript source; the theorems settle the specification claims.
-/

namespace ElAcademico

/-- A document summary; the UI relies only on an identifier field (`doc.id`). -/
structure Document where
  id : Nat
deriving DecidableEq, Repr

/-- A blog post summary; the UI relies only on an identifier field (`post.id`). -/
structure BlogPost where
  id : Nat
deriving DecidableEq, Repr

/-- The filter set held by `DocumentSearch` (one `useState`, seeded from the
URL): category, university, fromDate, toDate, each a string, empty when unset. -/
structure Filters where
  category : String
  university : String
  fromDate : String
  toDate : String
deriving DecidableEq, Repr

/-- The all-empty filter set (the default when the URL carries no filters). -/
def Filters.empty : Filters := ⟨"", "", "", ""⟩

/-- A subset of filter keys, as passed to `updateFilters`: each key is either
present (and overrides) or absent (and the previous value is retained),
mirroring the JS object spread `{...prevFilters, ...newFilters}`. -/
structure PartialFilters where
  category : Option String := none
  university : Option String := none
  fromDate : Option String := none
  toDate : Option String := none
deriving DecidableEq, Repr

/-- The spread `{...prevFilters, ...newFilters}` inside `updateFilters`. -/
def Filters.merge (prev : Filters) (pf : PartialFilters) : Filters where
  category := pf.category.getD prev.category
  university := pf.university.getD prev.university
  fromDate := pf.fromDate.getD prev.fromDate
  toDate := pf.toDate.getD prev.toDate

/-- The component state of `DocumentSearch`: the six `useState` hooks
searchTerm, filters, documents, loading, page, hasMore. -/
structure SearchState where
  searchTerm : String
  filters : Filters
  documents : List Document
  loading : Bool
  page : Nat
  hasMore : Bool
deriving DecidableEq, Repr

/-- The search-params object built inside `fetchDocuments`:
`{query, page: currentPage, limit: 12, ...filters}`. -/
structure SearchParams where
  query : String
  page : Nat
  limit : Nat
  category : String
  university : String
  fromDate : String
  toDate : String
deriving DecidableEq, Repr

/-- The response shape of the `searchDocuments` collaborator:
`{data, totalPages}`. -/
structure SearchResponse where
  data : List Document
  totalPages : Nat
deriving DecidableEq, Repr

/-- The `setSearchTerm` setter wired to the SearchBar `onChange`: it replaces
the term and touches nothing else (in particular it does not reset the page). -/
def setSearchTerm (s : SearchState) (t : String) : SearchState :=
  { s with searchTerm := t }

/-- `updateFilters`: merges the partial update into the filter set immutably
and resets the page to 1 (`setPage(1)`). -/
def updateFilters (s : SearchState) (newFilters : PartialFilters) : SearchState :=
  { s with filters := s.filters.merge newFilters, page := 1 }

/-- The search-params object constructed in `fetchDocuments`: `currentPage` is
1 for a new search and the page state otherwise; limit is fixed at 12. -/
def buildSearchParams (isNewSearch : Bool) (s : SearchState) : SearchParams where
  query := s.searchTerm
  page := if isNewSearch then 1 else s.page
  limit := 12
  category := s.filters.category
  university := s.filters.university
  fromDate := s.filters.fromDate
  toDate := s.filters.toDate

/-- The search parameters of the browser URL, as an ordered key-value list. -/
abbrev Url := List (String × String)

/-- `URLSearchParams.delete`: removes every entry stored under the key. -/
def urlDelete : Url → String → Url
  | [], _ => []
  | e :: rest, k => if e.1 = k then urlDelete rest k else e :: urlDelete rest k

/-- `URLSearchParams.set`: replaces the first entry under the key (removing
any later duplicates), or appends the pair when the key is absent. -/
def urlSet : Url → String → String → Url
  | [], k, v => [(k, v)]
  | e :: rest, k, v =>
      if e.1 = k then (k, v) :: urlDelete rest k else e :: urlSet rest k v

/-- All values stored under a key, in order (`URLSearchParams.getAll`). -/
def urlGetAll : Url → String → List String
  | [], _ => []
  | e :: rest, k => if e.1 = k then e.2 :: urlGetAll rest k else urlGetAll rest k

/-- A JS value occurring in the search-params object: the string-valued
fields, or the numeric `page` and `limit` fields. -/
inductive ParamValue where
  | str (s : String)
  | num (n : Nat)
deriving DecidableEq, Repr

/-- JS truthiness of a parameter value: a string is truthy exactly when
non-empty, a number exactly when non-zero. -/
def ParamValue.truthy : ParamValue → Bool
  | .str s => s != ""
  | .num n => n != 0

/-- The stringification applied by `URLSearchParams.set`. -/
def ParamValue.render : ParamValue → String
  | .str s => s
  | .num n => toString n

/-- `Object.entries` of the search-params object, in JS insertion order. -/
def SearchParams.entries (p : SearchParams) : List (String × ParamValue) :=
  [("query", .str p.query), ("page", .num p.page), ("limit", .num p.limit),
   ("category", .str p.category), ("university", .str p.university),
   ("fromDate", .str p.fromDate), ("toDate", .str p.toDate)]

/-- One step of `updateUrlWithSearchParams`: `url.searchParams.set(key, value)`
when the value is truthy, `url.searchParams.delete(key)` otherwise. -/
def applyEntry (u : Url) (kv : String × ParamValue) : Url :=
  if kv.2.truthy then urlSet u kv.1 kv.2.render else urlDelete u kv.1

/-- `updateUrlWithSearchParams`: walks the entries of the params object,
setting truthy values and deleting falsy ones, then pushes the new URL. -/
def updateUrlWithSearchParams (params : SearchParams) (url : Url) : Url :=
  params.entries.foldl applyEntry url

/-- The observable outcome of one `fetchDocuments(isNewSearch)` call, given
the settled result of the `searchDocuments` collaborator: the new component
state, the possibly rewritten URL, whether the URL was rewritten, whether an
error was logged, and the request that was sent. -/
structure FetchOutcome where
  state : SearchState
  url : Url
  urlWritten : Bool
  logged : Bool
  request : SearchParams
deriving DecidableEq, Repr

/-- `fetchDocuments`: sets loading, computes `currentPage` (1 on a new
search, the page state otherwise), issues the request; on success it replaces
(new search) or appends (load more) the documents, recomputes
`hasMore := totalPages > currentPage` and rewrites the URL; on failure it
logs the error and leaves everything else alone; `finally` clears loading. -/
def fetchDocuments (isNewSearch : Bool) (s : SearchState) (url : Url)
    (result : Except String SearchResponse) : FetchOutcome :=
  let currentPage := if isNewSearch then 1 else s.page
  let params := buildSearchParams isNewSearch s
  match result with
  | .ok response =>
      { state := { s with
          documents := if isNewSearch then response.data
                       else s.documents ++ response.data,
          hasMore := decide (response.totalPages > currentPage),
          loading := false },
        url := updateUrlWithSearchParams params url,
        urlWritten := true,
        logged := false,
        request := params }
  | .error _ =>
      { state := { s with loading := false },
        url := url,
        urlWritten := false,
        logged := true,
        request := params }

/-- `handleLoadMore`: increments the page only when not loading and more
pages remain; otherwise it leaves the state untouched. -/
def handleLoadMore (s : SearchState) : SearchState :=
  if !s.loading && s.hasMore then { s with page := s.page + 1 } else s

/-- Whether a `handleLoadMore` call triggers a fetch: the page effect
(`useEffect` keyed on page) fires exactly when the page value changed. -/
def loadMoreTriggersFetch (s : SearchState) : Bool :=
  (handleLoadMore s).page != s.page

/-- The term and filter snapshot captured by a scheduled debounce timer. -/
structure DebounceInput where
  term : String
  filters : Filters
deriving DecidableEq, Repr

/-- The debounce machinery of the term/filter effect: at most one pending
500ms timer with its captured snapshot, a count of timers cancelled by
`clearTimeout`, and the list of `fetchDocuments(true)` calls actually fired. -/
structure DebounceState where
  pending : Option DebounceInput
  cancelled : Nat
  fired : List DebounceInput
deriving DecidableEq, Repr

/-- A term or filter change re-runs the effect: the cleanup clears any
pending timer, and a fresh timer capturing the current snapshot is set. -/
def debounceChange (d : DebounceState) (input : DebounceInput) : DebounceState :=
  { pending := some input,
    cancelled := d.cancelled + (if d.pending.isSome then 1 else 0),
    fired := d.fired }

/-- The debounce delay elapses with no further change: the pending timer
fires `fetchDocuments(true)` with its captured snapshot. -/
def debounceTimerFire (d : DebounceState) : DebounceState :=
  match d.pending with
  | some input =>
      { pending := none, cancelled := d.cancelled, fired := d.fired ++ [input] }
  | none => d

/-- A burst of changes all inside the debounce window, followed by a quiet
period in which the last scheduled timer fires. -/
def processBurst (d : DebounceState) (events : List DebounceInput) : DebounceState :=
  debounceTimerFire (events.foldl debounceChange d)

/-- A JS error as observed by a catch handler: an optional `message`
property, plus the `String(err)` rendering. -/
structure JsError where
  message : Option String
  asString : String
deriving DecidableEq, Repr

/-- `err?.message || String(err)`: the message when present and non-empty,
otherwise the string rendering of the error. -/
def JsError.displayText (e : JsError) : String :=
  match e.message with
  | some m => if m = "" then e.asString else m
  | none => e.asString

/-- The component state of `HomePage`: the four `useState` hooks
recentDocuments, recentPosts, isLoading, error. -/
structure HomeState where
  recentDocuments : List Document
  recentPosts : List BlogPost
  isLoading : Bool
  error : Option String
deriving DecidableEq, Repr

/-- The settled result of one of the two concurrent fetches: resolved with a
possibly-null array, or rejected with an error. -/
inductive FetchResult (α : Type) where
  | resolved (value : Option α)
  | rejected (e : JsError)
deriving DecidableEq, Repr

/-- `Promise.all` over the two fetches: resolves with the pair when both
resolve; rejects with the error of whichever fetch rejected, and with the
first rejection when both reject (`docsFirst` tells which rejected first). -/
def promiseAll (docs : FetchResult (List Document))
    (posts : FetchResult (List BlogPost)) (docsFirst : Bool) :
    Except JsError (Option (List Document) × Option (List BlogPost)) :=
  match docs, posts with
  | .resolved d, .resolved p => .ok (d, p)
  | .rejected e, .resolved _ => .error e
  | .resolved _, .rejected e => .error e
  | .rejected e1, .rejected e2 => .error (if docsFirst then e1 else e2)

/-- Completion of `loadInitialData`, given the mounted flag at settle time:
on success, the guard `if (!mounted) return` suppresses the list updates when
unmounted, otherwise the null-coerced lists are stored; on rejection the
catch branch sets the error text unconditionally (it carries no mounted
guard); the `finally` clears the loading flag only while still mounted. -/
def loadInitialDataComplete (mounted : Bool) (s : HomeState)
    (outcome : Except JsError (Option (List Document) × Option (List BlogPost))) :
    HomeState :=
  match outcome with
  | .ok (documentsData, postsData) =>
      if mounted then
        { s with recentDocuments := documentsData.getD [],
                 recentPosts := postsData.getD [],
                 isLoading := false }
      else s
  | .error e =>
      let s1 := { s with error := some e.displayText }
      if mounted then { s1 with isLoading := false } else s1

/-- What `HomePage` renders from its state. -/
inductive HomeView where
  | loadingView
  | errorView (text : String)
  | successView (docs : List Document) (posts : List BlogPost)
deriving DecidableEq, Repr

/-- The render guards of `HomePage`: a spinner while loading, then the error
view `Error: ...`, otherwise the success view built from the two lists. -/
def renderHome (s : HomeState) : HomeView :=
  if s.isLoading then .loadingView
  else
    match s.error with
    | some e => .errorView ("Error: " ++ e)
    | none => .successView s.recentDocuments s.recentPosts

/-- Concrete document summaries used in the scenario theorems. -/
def doc1 : Document := ⟨1⟩

/-- Second concrete document summary. -/
def doc2 : Document := ⟨2⟩

/-- Third concrete document summary. -/
def doc3 : Document := ⟨3⟩

/-- The initial `DocumentSearch` state on a mount with a bare URL: empty term
and filters, no documents, not loading, page 1, hasMore true. -/
def initialSearchState : SearchState :=
  { searchTerm := "", filters := Filters.empty, documents := [],
    loading := false, page := 1, hasMore := true }

/-- The initial `HomePage` state: empty lists, loading, no error. -/
def initialHomeState : HomeState :=
  { recentDocuments := [], recentPosts := [], isLoading := true, error := none }

/-- Deleting a key leaves nothing stored under it. -/
theorem urlGetAll_delete_self (url : Url) (k : String) :
    urlGetAll (urlDelete url k) k = [] := by
  induction url with
  | nil => rfl
  | cons e rest ih =>
      by_cases h : e.1 = k <;> simp [urlDelete, urlGetAll, h, ih]

/-- Deleting a key leaves every other key untouched. -/
theorem urlGetAll_delete_other (url : Url) (k k2 : String) (h : k2 ≠ k) :
    urlGetAll (urlDelete url k) k2 = urlGetAll url k2 := by
  induction url with
  | nil => rfl
  | cons e rest ih =>
      by_cases h1 : e.1 = k
      · have h2 : e.1 ≠ k2 := by rw [h1]; exact Ne.symm h
        simp [urlDelete, urlGetAll, h1, h2, h, Ne.symm h, ih]
      · by_cases h2 : e.1 = k2 <;>
          simp [urlDelete, urlGetAll, h1, h2, h, Ne.symm h, ih]

/-- After a set, the key stores exactly the one value just written. -/
theorem urlGetAll_set_self (url : Url) (k v : String) :
    urlGetAll (urlSet url k v) k = [v] := by
  induction url with
  | nil => simp [urlSet, urlGetAll]
  | cons e rest ih =>
      by_cases h : e.1 = k
      · simp [urlSet, urlGetAll, h, urlGetAll_delete_self]
      · simp [urlSet, urlGetAll, h, ih]

/-- Setting a key leaves every other key untouched. -/
theorem urlGetAll_set_other (url : Url) (k k2 v : String) (h : k2 ≠ k) :
    urlGetAll (urlSet url k v) k2 = urlGetAll url k2 := by
  induction url with
  | nil => simp [urlSet, urlGetAll, Ne.symm h]
  | cons e rest ih =>
      by_cases h1 : e.1 = k
      · have h2 : e.1 ≠ k2 := by rw [h1]; exact Ne.symm h
        simp [urlSet, urlGetAll, h1, h2, h, Ne.symm h,
          urlGetAll_delete_other rest k k2 h]
      · by_cases h2 : e.1 = k2 <;>
          simp [urlSet, urlGetAll, h1, h2, h, Ne.symm h, ih]

/-- Processing an entry stores exactly its rendered value under its key when
truthy, and nothing when falsy. -/
theorem urlGetAll_applyEntry_self (u : Url) (k : String) (v : ParamValue) :
    urlGetAll (applyEntry u (k, v)) k = if v.truthy then [v.render] else [] := by
  cases hv : v.truthy <;>
    simp [applyEntry, hv, urlGetAll_set_self, urlGetAll_delete_self]

/-- Processing an entry leaves every other key untouched. -/
theorem urlGetAll_applyEntry_other (u : Url) (k k2 : String) (v : ParamValue)
    (h : k2 ≠ k) :
    urlGetAll (applyEntry u (k, v)) k2 = urlGetAll u k2 := by
  cases hv : v.truthy <;>
    simp [applyEntry, hv, urlGetAll_set_other (h := h),
      urlGetAll_delete_other (h := h)]

/-- Claim C6: after every successful fetch the URL is rewritten through
`updateUrlWithSearchParams`, and the rewritten URL stores, for each search
parameter, exactly its rendered value when the value is truthy and nothing at
all when the value is empty (strings) or zero (numbers); in particular, with
filter category Ciencias and an empty university filter, the resulting query
string holds category=Ciencias and no university key, even when a stale
university entry was present before. -/
theorem url_serialization_omits_empty :
    (∀ (isNewSearch : Bool) (s : SearchState) (url : Url) (resp : SearchResponse),
        (fetchDocuments isNewSearch s url (.ok resp)).urlWritten = true ∧
        (fetchDocuments isNewSearch s url (.ok resp)).url =
          updateUrlWithSearchParams (buildSearchParams isNewSearch s) url) ∧
    (∀ (p : SearchParams) (url : Url),
        urlGetAll (updateUrlWithSearchParams p url) "query" =
          (if p.query != "" then [p.query] else []) ∧
        urlGetAll (updateUrlWithSearchParams p url) "page" =
          (if p.page != 0 then [toString p.page] else []) ∧
        urlGetAll (updateUrlWithSearchParams p url) "limit" =
          (if p.limit != 0 then [toString p.limit] else []) ∧
        urlGetAll (updateUrlWithSearchParams p url) "category" =
          (if p.category != "" then [p.category] else []) ∧
        urlGetAll (updateUrlWithSearchParams p url) "university" =
          (if p.university != "" then [p.university] else []) ∧
        urlGetAll (updateUrlWithSearchParams p url) "fromDate" =
          (if p.fromDate != "" then [p.fromDate] else []) ∧
        urlGetAll (updateUrlWithSearchParams p url) "toDate" =
          (if p.toDate != "" then [p.toDate] else [])) ∧
    (urlGetAll (updateUrlWithSearchParams
        { query := "", page := 1, limit := 12, category := "Ciencias",
          university := "", fromDate := "", toDate := "" }
        [("university", "UNAM")]) "category" = ["Ciencias"] ∧
     urlGetAll (updateUrlWithSearchParams
        { query := "", page := 1, limit := 12, category := "Ciencias",
          university := "", fromDate := "", toDate := "" }
        [("university", "UNAM")]) "university" = []) := by
  refine ⟨fun i s url resp => ⟨rfl, rfl⟩, fun p url => ?_, by decide⟩
  simp only [updateUrlWithSearchParams, SearchParams.entries, List.foldl_cons,
    List.foldl_nil]
  refine ⟨?_, ?_, ?_, ?_, ?_, ?_, ?_⟩
  · rw [urlGetAll_applyEntry_other, urlGetAll_applyEntry_other,
      urlGetAll_applyEntry_other, urlGetAll_applyEntry_other,
      urlGetAll_applyEntry_other, urlGetAll_applyEntry_other,
      urlGetAll_applyEntry_self] <;> first | rfl | decide
  · rw [urlGetAll_applyEntry_other, urlGetAll_applyEntry_other,
      urlGetAll_applyEntry_other, urlGetAll_applyEntry_other,
      urlGetAll_applyEntry_other, urlGetAll_applyEntry_self] <;>
      first | rfl | decide
  · rw [urlGetAll_applyEntry_other, urlGetAll_applyEntry_other,
      urlGetAll_applyEntry_other, urlGetAll_applyEntry_other,
      urlGetAll_applyEntry_self] <;> first | rfl | decide
  · rw [urlGetAll_applyEntry_other, urlGetAll_applyEntry_other,
      urlGetAll_applyEntry_other, urlGetAll_applyEntry_self] <;>
      first | rfl | decide
  · rw [urlGetAll_applyEntry_other, urlGetAll_applyEntry_other,
      urlGetAll_applyEntry_self] <;> first | rfl | decide
  · rw [urlGetAll_applyEntry_other, urlGetAll_applyEntry_self] <;>
      first | rfl | decide
  · rw [urlGetAll_applyEntry_self]; rfl

/-- Folding further changes over a state with a pending timer: each change
cancels the previous timer, and the snapshot of the last change is pending. -/
theorem foldl_debounceChange_some (es : List DebounceInput) (d : DebounceState)
    (x : DebounceInput) (h : d.pending = some x) :
    es.foldl debounceChange d =
      { pending := some (es.getLastD x), cancelled := d.cancelled + es.length,
        fired := d.fired } := by
  induction es generalizing d x with
  | nil => cases d; simp_all [List.getLastD]
  | cons e rest ih =>
      rw [List.foldl_cons, ih (debounceChange d e) e rfl]
      simp only [debounceChange, h, List.getLastD_cons, Option.isSome_some,
        if_true, List.length_cons, DebounceState.mk.injEq, and_true, true_and]
      omega

/-- Claim C2: a burst of term or filter changes inside the debounce window is
coalesced: exactly one new-search fetch fires, carrying the final snapshot of
the burst, and every one of the earlier scheduled timers was cancelled. -/
theorem debounce_coalesces (d : DebounceState) (e : DebounceInput)
    (es : List DebounceInput) (h : d.pending = none) :
    (processBurst d (e :: es)).fired = d.fired ++ [es.getLastD e] ∧
    (processBurst d (e :: es)).cancelled = d.cancelled + es.length ∧
    (processBurst d (e :: es)).pending = none := by
  unfold processBurst
  rw [List.foldl_cons, foldl_debounceChange_some es (debounceChange d e) e rfl]
  simp [debounceChange, debounceTimerFire, h]

/-- Witness for C2: a quiescent debounce state and a burst of three term
changes fire exactly one fetch with the final term, cancelling two timers. -/
theorem debounce_coalesces_witness :
    (processBurst ⟨none, 0, []⟩
        [⟨"a", Filters.empty⟩, ⟨"al", Filters.empty⟩, ⟨"alg", Filters.empty⟩]).fired =
      [] ++ [(⟨"alg", Filters.empty⟩ : DebounceInput)] ∧
    (processBurst ⟨none, 0, []⟩
        [⟨"a", Filters.empty⟩, ⟨"al", Filters.empty⟩, ⟨"alg", Filters.empty⟩]).cancelled =
      0 + 2 ∧
    (processBurst ⟨none, 0, []⟩
        [⟨"a", Filters.empty⟩, ⟨"al", Filters.empty⟩, ⟨"alg", Filters.empty⟩]).pending =
      none := by
  have h := debounce_coalesces ⟨none, 0, []⟩ ⟨"a", Filters.empty⟩
    [⟨"al", Filters.empty⟩, ⟨"alg", Filters.empty⟩] rfl
  simpa using h

/-- Counterexample to claim C1 as stated: a term-only change followed by the
debounced new search leaves the page component of the state at its previous
value 3 instead of resetting it to 1 (`setSearchTerm` never calls
`setPage(1)` and `fetchDocuments` only uses a local `currentPage`). -/
theorem newSearch_term_change_page_not_reset :
    (fetchDocuments true
        (setSearchTerm
          { searchTerm := "x", filters := Filters.empty,
            documents := [doc1, doc2], loading := false, page := 3,
            hasMore := false } "algebra")
        [] (.ok ⟨[doc3], 5⟩)).state.page = 3 ∧ (3 : Nat) ≠ 1 := by
  decide

/-- Claim C1 amended: every new-search fetch requests page 1 and, on success,
the result list equals exactly the response items, replacing any previously
accumulated results; the page component of the state is reset to 1 when the
new search is triggered by a filter change, while a term-only change leaves
the page component at its previous value. -/
theorem newSearch_requests_page1_and_replaces :
    (∀ (s : SearchState) (url : Url) (resp : SearchResponse),
        (fetchDocuments true s url (.ok resp)).request.page = 1 ∧
        (fetchDocuments true s url (.ok resp)).state.documents = resp.data) ∧
    (∀ (s : SearchState) (pf : PartialFilters), (updateFilters s pf).page = 1) ∧
    (∀ (s : SearchState) (t : String), (setSearchTerm s t).page = s.page) :=
  ⟨fun _ _ _ => ⟨rfl, rfl⟩, fun _ _ => rfl, fun _ _ => rfl⟩

/-- Claim C3: when loading, or when no further pages remain, a load-more
request leaves every component of the state unchanged and triggers no fetch. -/
theorem loadMore_noop (s : SearchState)
    (h : s.loading = true ∨ s.hasMore = false) :
    handleLoadMore s = s ∧ loadMoreTriggersFetch s = false := by
  have hcond : (!s.loading && s.hasMore) = false := by
    rcases h with h | h <;> simp [h]
  constructor
  · simp [handleLoadMore, hcond]
  · simp [loadMoreTriggersFetch, handleLoadMore, hcond]

/-- Witness for C3: a concrete loading state on which load-more is a no-op. -/
theorem loadMore_noop_witness :
    handleLoadMore
        { searchTerm := "", filters := Filters.empty, documents := [doc1],
          loading := true, page := 2, hasMore := true } =
      { searchTerm := "", filters := Filters.empty, documents := [doc1],
        loading := true, page := 2, hasMore := true } ∧
    loadMoreTriggersFetch
        { searchTerm := "", filters := Filters.empty, documents := [doc1],
          loading := true, page := 2, hasMore := true } = false :=
  loadMore_noop
    { searchTerm := "", filters := Filters.empty, documents := [doc1],
      loading := true, page := 2, hasMore := true } (Or.inl rfl)

/-- Claim C4: the concrete pagination scenario (initial load requests query
empty, page 1, limit 12; the response with two documents and three total
pages yields those documents with hasMore; the following load-more requests
page 2 and appends the third document, hasMore still true), and in general
hasMore after a successful fetch holds exactly when totalPages exceeds the
requested page. -/
theorem pagination_scenario :
    ((fetchDocuments false initialSearchState [] (.ok ⟨[doc1, doc2], 3⟩)).request.query = "" ∧
     (fetchDocuments false initialSearchState [] (.ok ⟨[doc1, doc2], 3⟩)).request.page = 1 ∧
     (fetchDocuments false initialSearchState [] (.ok ⟨[doc1, doc2], 3⟩)).request.limit = 12 ∧
     (fetchDocuments false initialSearchState [] (.ok ⟨[doc1, doc2], 3⟩)).state.documents =
       [doc1, doc2] ∧
     (fetchDocuments false initialSearchState [] (.ok ⟨[doc1, doc2], 3⟩)).state.hasMore = true ∧
     (fetchDocuments false
        (handleLoadMore (fetchDocuments false initialSearchState [] (.ok ⟨[doc1, doc2], 3⟩)).state)
        (fetchDocuments false initialSearchState [] (.ok ⟨[doc1, doc2], 3⟩)).url
        (.ok ⟨[doc3], 3⟩)).request.page = 2 ∧
     (fetchDocuments false
        (handleLoadMore (fetchDocuments false initialSearchState [] (.ok ⟨[doc1, doc2], 3⟩)).state)
        (fetchDocuments false initialSearchState [] (.ok ⟨[doc1, doc2], 3⟩)).url
        (.ok ⟨[doc3], 3⟩)).state.documents = [doc1, doc2, doc3] ∧
     (fetchDocuments false
        (handleLoadMore (fetchDocuments false initialSearchState [] (.ok ⟨[doc1, doc2], 3⟩)).state)
        (fetchDocuments false initialSearchState [] (.ok ⟨[doc1, doc2], 3⟩)).url
        (.ok ⟨[doc3], 3⟩)).state.hasMore = true) ∧
    (∀ (isNewSearch : Bool) (s : SearchState) (url : Url) (resp : SearchResponse),
        ((fetchDocuments isNewSearch s url (.ok resp)).state.hasMore = true ↔
          resp.totalPages > (if isNewSearch then 1 else s.page))) := by
  constructor
  · decide
  · intro isNewSearch s url resp
    cases isNewSearch <;> simp [fetchDocuments]

/-- Claim C5: a failed fetch logs the error, clears the loading flag, and
changes nothing else: term, filters, documents, page and hasMore keep their
previous values and the URL is not rewritten. -/
theorem fetch_failure_preserves_state :
    ∀ (isNewSearch : Bool) (s : SearchState) (url : Url) (e : String),
      (fetchDocuments isNewSearch s url (.error e)).state.searchTerm = s.searchTerm ∧
      (fetchDocuments isNewSearch s url (.error e)).state.filters = s.filters ∧
      (fetchDocuments isNewSearch s url (.error e)).state.documents = s.documents ∧
      (fetchDocuments isNewSearch s url (.error e)).state.page = s.page ∧
      (fetchDocuments isNewSearch s url (.error e)).state.hasMore = s.hasMore ∧
      (fetchDocuments isNewSearch s url (.error e)).state.loading = false ∧
      (fetchDocuments isNewSearch s url (.error e)).url = url ∧
      (fetchDocuments isNewSearch s url (.error e)).urlWritten = false ∧
      (fetchDocuments isNewSearch s url (.error e)).logged = true :=
  fun _ _ _ _ => ⟨rfl, rfl, rfl, rfl, rfl, rfl, rfl, rfl, rfl⟩

/-- Counterexample to claim C7 as stated: an error completion arriving after
unmount still applies a state update, because the catch branch calls
`setError` without consulting the mounted flag; from the initial state, a
post-unmount rejection changes the state. -/
theorem unmount_error_update_cex :
    loadInitialDataComplete false initialHomeState
        (.error ⟨some "timeout", "timeout"⟩) ≠ initialHomeState := by
  decide

/-- Claim C7 amended: after unmount, successful completions are fully
suppressed (the state is unchanged) and the loading-flag clear is suppressed;
an error completion, however, still sets the error text, the catch branch
carrying no mounted guard, while every other component stays unchanged. -/
theorem unmount_guard_scope :
    (∀ (s : HomeState) (d : Option (List Document)) (p : Option (List BlogPost)),
        loadInitialDataComplete false s (.ok (d, p)) = s) ∧
    (∀ (s : HomeState) (e : JsError),
        (loadInitialDataComplete false s (.error e)).recentDocuments =
          s.recentDocuments ∧
        (loadInitialDataComplete false s (.error e)).recentPosts = s.recentPosts ∧
        (loadInitialDataComplete false s (.error e)).isLoading = s.isLoading ∧
        (loadInitialDataComplete false s (.error e)).error = some e.displayText) :=
  ⟨fun _ _ _ => rfl, fun _ _ => ⟨rfl, rfl, rfl, rfl⟩⟩

/-- Claim C8: any rejection among the two concurrent fetches puts the landing
page into the single error view carrying the first rejection text, never a
partial success view; concretely, documents resolving while the posts fetch
rejects with message timeout renders an error view whose text contains
timeout, and not a success view with the resolved documents. -/
theorem landing_rejection_error_view :
    (∀ (s : HomeState) (d : Option (List Document)) (e : JsError) (b : Bool),
        renderHome (loadInitialDataComplete true s
            (promiseAll (.resolved d) (.rejected e) b)) =
          .errorView ("Error: " ++ e.displayText)) ∧
    (∀ (s : HomeState) (p : Option (List BlogPost)) (e : JsError) (b : Bool),
        renderHome (loadInitialDataComplete true s
            (promiseAll (.rejected e) (.resolved p) b)) =
          .errorView ("Error: " ++ e.displayText)) ∧
    (∀ (s : HomeState) (e1 e2 : JsError),
        renderHome (loadInitialDataComplete true s
            (promiseAll (.rejected e1) (.rejected e2) true)) =
          .errorView ("Error: " ++ e1.displayText)) ∧
    (∀ (ds : List Document) (ps : List BlogPost),
        renderHome (loadInitialDataComplete true initialHomeState
            (promiseAll (.resolved (some [doc1]))
              (.rejected ⟨some "timeout", "timeout"⟩) true)) ≠
          .successView ds ps) ∧
    (∃ a b : String,
        renderHome (loadInitialDataComplete true initialHomeState
            (promiseAll (.resolved (some [doc1]))
              (.rejected ⟨some "timeout", "timeout"⟩) true)) =
          .errorView (a ++ "timeout" ++ b)) := by
  refine ⟨fun _ _ _ _ => rfl, fun _ _ _ _ => rfl, fun _ _ _ => rfl,
    fun ds ps h => ?_, ⟨"Error: ", "", by decide⟩⟩
  exact HomeView.noConfusion h

/-- Claim C9: `updateFilters` merges the partial update into the current
filter set, present keys overriding and absent keys retained, resets the page
component to 1, and leaves every other component of the state unchanged. -/
theorem updateFilters_merges_and_resets_page :
    ∀ (s : SearchState) (pf : PartialFilters),
      (updateFilters s pf).filters.category =
        pf.category.getD s.filters.category ∧
      (updateFilters s pf).filters.university =
        pf.university.getD s.filters.university ∧
      (updateFilters s pf).filters.fromDate =
        pf.fromDate.getD s.filters.fromDate ∧
      (updateFilters s pf).filters.toDate = pf.toDate.getD s.filters.toDate ∧
      (updateFilters s pf).page = 1 ∧
      (updateFilters s pf).searchTerm = s.searchTerm ∧
      (updateFilters s pf).documents = s.documents ∧
      (updateFilters s pf).loading = s.loading ∧
      (updateFilters s pf).hasMore = s.hasMore :=
  fun _ _ => ⟨rfl, rfl, rfl, rfl, rfl, rfl, rfl, rfl, rfl⟩

/-- Claim C10: when both fetches resolve while mounted, null-ish payloads are
coerced to the empty list before being stored, so the success view always
renders from well-formed, possibly empty, lists. -/
theorem null_coercion_lists :
    (∀ (s : HomeState) (d : Option (List Document)) (p : Option (List BlogPost)),
        (loadInitialDataComplete true s
            (promiseAll (.resolved d) (.resolved p) true)).recentDocuments =
          d.getD [] ∧
        (loadInitialDataComplete true s
            (promiseAll (.resolved d) (.resolved p) true)).recentPosts =
          p.getD []) ∧
    ((loadInitialDataComplete true initialHomeState
        (promiseAll (.resolved none) (.resolved none) true)).recentDocuments = [] ∧
     (loadInitialDataComplete true initialHomeState
        (promiseAll (.resolved none) (.resolved none) true)).recentPosts = [] ∧
     renderHome (loadInitialDataComplete true initialHomeState
        (promiseAll (.resolved none) (.resolved none) true)) =
       .successView [] []) :=
  ⟨fun _ _ _ => ⟨rfl, rfl⟩, ⟨rfl, rfl, rfl⟩⟩

end ElAcademico
